import Mathlib

/-!
Shallow embedding of the mcp-screenshot-poc web application for checking its
natural-language specification.

The embedding covers:
* the screenshot POST route (`src/app/api/screenshot/route.ts`): the spawn
  outcome of the helper process and the `close` handler that maps it to an
  HTTP response;
* the chat POST/GET routes, in their current function-calling form
  (`src/app/api/chat/route.ts` with the function-calling `gemini.ts`) and in
  the superseded two-call form (intent detection + URL extraction route with
  the string-returning `gemini.ts`);
* the LLM wrapper utilities (`gemini.ts`): `extractUrlFromPrompt`,
  `detectScreenshotIntent`, and both `generateChatResponse` variants.

External collaborators (the Gemini SDK, the WHATWG URL parser, the spawned
process) are modelled as explicit outcome parameters: each route function
takes the observed outcome of the external call it makes, and the theorems
quantify over those outcomes.  Timestamps (`new Date()`) are modelled as a
`Nat` supplied per request.  JavaScript string truthiness (empty string is
falsy) is modelled explicitly where the routes rely on it.
-/

namespace MCPScreenshot

/-! ## Data model (gemini.ts: ChatMessage, ChatSession, FunctionCallResult) -/

inductive Role where
  | user
  | assistant
  | system
deriving DecidableEq

/-- `ChatMessage` from gemini.ts: role, content, timestamp and the three
optional screenshot fields (absent = `none`). -/
structure ChatMessage where
  role : Role
  content : String
  timestamp : Nat
  isScreenshot : Option Bool := none
  screenshotUrl : Option String := none
  screenshotBase64 : Option String := none
deriving DecidableEq

/-- `ChatSession` from gemini.ts. -/
structure ChatSession where
  id : String
  messages : List ChatMessage
  createdAt : Nat
  updatedAt : Nat
deriving DecidableEq

/-- The function-call descriptor inside a `FunctionCallResult`; `argsUrl`
models `functionCall.args.url`, absent when the model supplied no url
argument. -/
structure FnCall where
  name : String
  argsUrl : Option String
deriving DecidableEq

/-- `FunctionCallResult` from the function-calling gemini.ts. -/
structure FunctionCallResult where
  text : String
  functionCall : Option FnCall := none
deriving DecidableEq

/-- The in-memory `chatSessions` map, as an association list keyed by session
id (insertion at the back, first match wins on lookup, `set` overwrites). -/
abbrev Store := List (String × ChatSession)

def storeGet : Store → String → Option ChatSession
  | [], _ => none
  | (k, s) :: rest, key => if k = key then some s else storeGet rest key

/-- `Map.set`: replace the binding if the key is present, else append. -/
def storeSet : Store → String → ChatSession → Store
  | [], key, v => [(key, v)]
  | (k, s) :: rest, key, v =>
      if k = key then (key, v) :: rest else (k, s) :: storeSet rest key v

/-- JavaScript truthiness of a nullable string: null/undefined and the empty
string are falsy. -/
def strTruthy : Option String → Bool
  | none => false
  | some s => s ≠ ""

/-! ## Screenshot route (src/app/api/screenshot/route.ts) -/

/-- The state the route's `close` handler observes: `processError` set by the
`error` event, the exit code delivered by `close` (`none` models a null code),
and the collected stdout/stderr text. -/
structure SpawnState where
  processError : Option String
  exitCode : Option Int
  stdoutData : String
  stderrData : String
deriving DecidableEq

inductive ScreenshotResponse where
  | ok (base64Data : String)
  | err (status : Nat) (error : String)
deriving DecidableEq

/-- Template-literal interpolation of the exit code (`null` prints as
"null"). -/
def showExitCode : Option Int → String
  | none => "null"
  | some n => toString n

def spawnFailureError (m : String) : String :=
  "Failed to start screenshot process: " ++ m

def nonzeroExitError (code : Option Int) (stderrData : String) : String :=
  "Screenshot script failed (code " ++ showExitCode code ++
    "). Check server logs. Output: " ++ stderrData

def emptyOutputError : String :=
  "Screenshot script succeeded but returned no data."

/-- The `close` handler of the screenshot route: spawn error first, then
non-zero exit code, then empty stdout, else success carrying stdout. -/
def closeHandler (st : SpawnState) : ScreenshotResponse :=
  match st.processError with
  | some m => .err 500 (spawnFailureError m)
  | none =>
      if st.exitCode ≠ some 0 then
        .err 500 (nonzeroExitError st.exitCode st.stderrData)
      else if st.stdoutData = "" then
        .err 500 emptyOutputError
      else
        .ok st.stdoutData

/-- The screenshot POST endpoint.  `validatedUrl` is the result of the zod
schema check (`none` = invalid body or URL, in which case the route answers
400 before spawning anything).  The second component records whether the
helper process was spawned. -/
def screenshotPOST (validatedUrl : Option String) (st : SpawnState) :
    ScreenshotResponse × Bool :=
  match validatedUrl with
  | none => (.err 400 "Invalid request body or URL.", false)
  | some _ => (closeHandler st, true)

/-! ## LLM wrapper utilities (gemini.ts, both historical variants)

Each wrapper takes the outcome of the external Gemini call as an
`Except String _` value: `.error e` models the SDK throwing (transport/API
error), `.ok t` models a reply text `t`.  The wrappers are total: a caught
error is mapped to the safe default the source returns. -/

/-- The sentinel reply meaning "no URL found". -/
def noUrlSentinel : String := "NO_URL_FOUND"

/-- Model of JavaScript `String.prototype.trim`: strip whitespace from both
ends (kept executable over the character list). -/
def trimStr (s : String) : String :=
  ⟨((s.data.dropWhile Char.isWhitespace).reverse.dropWhile Char.isWhitespace).reverse⟩

/-- Model of JavaScript `String.prototype.toUpperCase`. -/
def upperStr (s : String) : String := ⟨s.data.map Char.toUpper⟩

/-- Model of JavaScript `String.prototype.startsWith`. -/
def startsWithStr (s p : String) : Bool := s.data.take p.data.length == p.data

/-- Core decision logic of `extractUrlFromPrompt`, parametrised by the
platform URL parser: `parseURL s` is `some (normalized form)` when
`new URL(s)` succeeds and `url.toString()` yields that form, else `none`. -/
def extractUrlCore (parseURL : String → Option String) (rawReply : String) :
    Option String :=
  let text := trimStr rawReply
  if text = noUrlSentinel then none
  else
    match parseURL text with
    | some u => some u
    | none =>
        if !(startsWithStr text "http://") && !(startsWithStr text "https://") then
          parseURL ("https://" ++ text)
        else none

/-- `extractUrlFromPrompt`: a thrown SDK error is caught and mapped to
`null`; otherwise the reply text is run through the core logic. -/
def extractUrlFromPrompt (parseURL : String → Option String)
    (llmReply : Except String String) : Option String :=
  match llmReply with
  | .error _ => none
  | .ok reply => extractUrlCore parseURL reply

/-- `detectScreenshotIntent`: a thrown SDK error is caught and mapped to
`false`; otherwise the trimmed, upper-cased reply must equal "YES". -/
def detectScreenshotIntent (llmReply : Except String String) : Bool :=
  match llmReply with
  | .error _ => false
  | .ok reply => upperStr (trimStr reply) == "YES"

/-- The apology fallback both `generateChatResponse` variants return when the
SDK call throws. -/
def apologyText : String :=
  "I'm sorry, I encountered an error while processing your message. Please try again."

/-- The context prompt the two-call variant's `generateChatResponse` writes
into the first user message's content. -/
def contextPrefix (original : String) : String :=
  "Context: You are a helpful assistant that can take screenshots of websites when asked. Be conversational and friendly. If I ask about taking a screenshot, let me know you can help with that.\n\nUser message: " ++ original

/-- The in-place mutation performed by the two-call variant's
`generateChatResponse`: `validMessages` is `messages.filter(...)`, whose
elements alias the objects of `messages`, so when the filtered list has
exactly one element and it is a user message, its `content` assignment
rewrites that same object inside `messages`. -/
def mutateFirstMessages (messages : List ChatMessage) : List ChatMessage :=
  match messages.filter (fun m => m.role == .user || m.role == .assistant) with
  | [m0] =>
      if m0.role == .user then
        messages.map (fun m =>
          if m.role == .user || m.role == .assistant then
            { m with content := contextPrefix m.content }
          else m)
      else messages
  | _ => messages

/-- The two-call variant's `generateChatResponse` (string-returning
gemini.ts): performs the first-message mutation, then returns the model's
text, or the apology text when the SDK call throws.  The second component is
the message list as left behind by the in-place mutation. -/
def generateChatResponseV2 (messages : List ChatMessage)
    (llmReply : Except String String) : String × List ChatMessage :=
  let mutated := mutateFirstMessages messages
  match llmReply with
  | .ok t => (t, mutated)
  | .error _ => (apologyText, mutated)

/-- Outcome of the function-calling `generateContent` call: the whole call
may throw (`apiError`), or return text together with the outcome of
`response.functionCalls()`, which itself may throw (inner catch) or yield an
optional first function call. -/
inductive GenFCOutcome where
  | apiError (msg : String)
  | ok (text : String) (fcResult : Except String (Option FnCall))

/-- The function-calling variant's `generateChatResponse`: an SDK error maps
to the apology text with no function call; a `functionCalls()` error is
caught and the plain text returned; otherwise text plus the first function
call, if any. -/
def generateChatResponseFC (outcome : GenFCOutcome) : FunctionCallResult :=
  match outcome with
  | .apiError _ => { text := apologyText }
  | .ok t fcRes =>
      match fcRes with
      | .error _ => { text := t }
      | .ok none => { text := t }
      | .ok (some fc) => { text := t, functionCall := some fc }

/-! ## Chat POST route (src/app/api/chat/route.ts) -/

/-- The decoded request body after the zod schema; validation additionally
requires `message` to be non-empty. -/
structure ChatRequest where
  sessionId : Option String
  message : String
deriving DecidableEq

inductive ChatPostResponse where
  | ok (sessionId : String) (response : ChatMessage) (extractedUrl : Option String)
      (isScreenshotIntent : Bool)
  | err (status : Nat) (error : String)
deriving DecidableEq

/-- HTTP status of a chat POST response (`NextResponse.json` defaults to
200 on the success path). -/
def chatStatus : ChatPostResponse → Nat
  | .ok _ _ _ _ => 200
  | .err s _ => s

/-- Outcome of the route's `fetch` of /api/screenshot: the screenshot API
answered success with a payload, answered failure with an error text, or the
fetch/json step itself threw. -/
inductive ScreenshotApiOutcome where
  | ok (base64Data : String)
  | failed (error : String)
  | threw (errMsg : String)
deriving DecidableEq

/-- A chat turn's full effect: the JSON response, the session store left
behind, and whether the LLM was called / the screenshot API was fetched. -/
structure ChatTurnOutput where
  response : ChatPostResponse
  store : Store
  llmCalled : Bool
  screenshotFetched : Bool
deriving DecidableEq

/-- The text `error.message` of the ZodError raised by
`MessageSchema.parse` on an empty message (the schema's configured
message). -/
def chatValidationError : String := "Message is required"

def validationFailure (store : Store) : ChatTurnOutput :=
  { response := .err 500 chatValidationError, store := store,
    llmCalled := false, screenshotFetched := false }

def newSession (freshId : String) (now : Nat) : ChatSession :=
  { id := freshId, messages := [], createdAt := now, updatedAt := now }

/-- Session resolution: a truthy `sessionId` that is a key of the store
reuses that session (refreshing `updatedAt`), anything else mints a fresh
session under `freshId` (the `uuidv4()` value).  The second component is the
store key the turn will write back to: reuse mutates the object the map
already holds under the requested id, creation does `set(freshId, ...)`. -/
def resolveSession (store : Store) (sessionId : Option String)
    (freshId : String) (now : Nat) : ChatSession × String :=
  match sessionId with
  | some sid =>
      if sid = "" then (newSession freshId now, freshId)
      else
        match storeGet store sid with
        | some s => ({ s with updatedAt := now }, sid)
        | none => (newSession freshId now, freshId)
  | none => (newSession freshId now, freshId)

def mkUserMessage (content : String) (now : Nat) : ChatMessage :=
  { role := .user, content := content, timestamp := now }

def mkAssistant (content : String) (now : Nat) : ChatMessage :=
  { role := .assistant, content := content, timestamp := now }

/-- `response.functionCall?.name === 'take_screenshot'`. -/
def fcIsScreenshotIntent (llm : FunctionCallResult) : Bool :=
  match llm.functionCall with
  | some fc => fc.name == "take_screenshot"
  | none => false

/-- `... ? response.functionCall.args.url : null`. -/
def fcExtractedUrl (llm : FunctionCallResult) : Option String :=
  match llm.functionCall with
  | some fc => if fc.name == "take_screenshot" then fc.argsUrl else none
  | none => none

def screenshotFailedText (u e : String) : String :=
  "I tried to take a screenshot of " ++ u ++ ", but encountered an error: " ++ e

def screenshotThrewText (e : String) : String :=
  "I tried to take a screenshot, but encountered an error: " ++ e

/-- The canned reply of the function-calling route when the model requested a
screenshot without a usable URL. -/
def invalidUrlMsgFC : String :=
  "I'd like to take a screenshot, but I couldn't process the URL. Could you please provide a valid URL?"

/-- Assistant message of the function-calling route in the branch that calls
the screenshot API with url `u`:  success carries the model text plus the
three screenshot fields, the two failure shapes carry only an error text. -/
def assistantOnShot (llmText u : String) (shot : ScreenshotApiOutcome)
    (now : Nat) : ChatMessage :=
  match shot with
  | .ok b =>
      { role := .assistant, content := llmText, timestamp := now,
        isScreenshot := some true, screenshotUrl := some u,
        screenshotBase64 := some b }
  | .failed e => mkAssistant (screenshotFailedText u e) now
  | .threw e => mkAssistant (screenshotThrewText e) now

/-- The assistant message the function-calling route composes. -/
def fcAssistant (llm : FunctionCallResult) (shot : ScreenshotApiOutcome)
    (now : Nat) : ChatMessage :=
  if fcIsScreenshotIntent llm && strTruthy (fcExtractedUrl llm) then
    assistantOnShot llm.text ((fcExtractedUrl llm).getD "") shot now
  else if fcIsScreenshotIntent llm then
    mkAssistant invalidUrlMsgFC now
  else
    mkAssistant llm.text now

/-- The two pushes of a turn: user message then assistant message. -/
def sessionAfterTurn (base : ChatSession) (msg : String) (now : Nat)
    (assistantMessage : ChatMessage) : ChatSession :=
  { base with messages := base.messages ++ [mkUserMessage msg now, assistantMessage] }

/-- The current (function-calling) chat POST handler.  `llm` is the outcome
of `generateChatResponse` (a `FunctionCallResult`), `shot` the outcome of the
screenshot fetch in the branch that performs one. -/
def chatPOST (now : Nat) (freshId : String) (req : ChatRequest) (store : Store)
    (llm : FunctionCallResult) (shot : ScreenshotApiOutcome) : ChatTurnOutput :=
  if req.message = "" then validationFailure store
  else
    let sk := resolveSession store req.sessionId freshId now
    let assistantMessage := fcAssistant llm shot now
    let finalSession := sessionAfterTurn sk.1 req.message now assistantMessage
    { response := .ok sk.1.id assistantMessage (fcExtractedUrl llm)
        (fcIsScreenshotIntent llm),
      store := storeSet store sk.2 finalSession,
      llmCalled := true,
      screenshotFetched := fcIsScreenshotIntent llm && strTruthy (fcExtractedUrl llm) }

/-! ## Chat POST route, superseded two-call variant -/

/-- Canned reply of the two-call route when no URL could be extracted. -/
def cannedNoUrlTwoCall : String :=
  "I'd be happy to take a screenshot for you, but I couldn't identify a specific website URL in your request. Could you please provide the URL of the website you'd like me to capture?"

def twoCallScreenshotText (u : String) : String :=
  "I've taken a screenshot of " ++ u ++ " for you."

/-- Assistant message of the two-call route inside the screenshot-intent
branch. -/
def twoCallIntentAssistant (extractedUrl : Option String)
    (shot : ScreenshotApiOutcome) (now : Nat) : ChatMessage :=
  if strTruthy extractedUrl then
    match shot with
    | .ok b =>
        { role := .assistant, content := twoCallScreenshotText (extractedUrl.getD ""),
          timestamp := now, isScreenshot := some true,
          screenshotUrl := some (extractedUrl.getD ""),
          screenshotBase64 := some b }
    | .failed e => mkAssistant (screenshotFailedText (extractedUrl.getD "") e) now
    | .threw e => mkAssistant (screenshotThrewText e) now
  else mkAssistant cannedNoUrlTwoCall now

/-- The superseded two-call chat POST handler.  `intent` is the result of
`detectScreenshotIntent`, `extractedUrl` the result of
`extractUrlFromPrompt` (queried only in the intent branch), `genReply` the
raw outcome of the `generateContent` call inside `generateChatResponse`
(made only in the non-intent branch), `shot` as in `chatPOST`. -/
def chatPOSTTwoCall (now : Nat) (freshId : String) (req : ChatRequest)
    (store : Store) (intent : Bool) (extractedUrl : Option String)
    (genReply : Except String String) (shot : ScreenshotApiOutcome) :
    ChatTurnOutput :=
  if req.message = "" then validationFailure store
  else
    let sk := resolveSession store req.sessionId freshId now
    if intent then
      let assistantMessage := twoCallIntentAssistant extractedUrl shot now
      let finalSession := sessionAfterTurn sk.1 req.message now assistantMessage
      { response := .ok sk.1.id assistantMessage extractedUrl true,
        store := storeSet store sk.2 finalSession,
        llmCalled := true,
        screenshotFetched := strTruthy extractedUrl }
    else
      let msgs1 := sk.1.messages ++ [mkUserMessage req.message now]
      let gen := generateChatResponseV2 msgs1 genReply
      let assistantMessage := mkAssistant gen.1 now
      let finalSession := { sk.1 with messages := gen.2 ++ [assistantMessage] }
      { response := .ok sk.1.id assistantMessage none false,
        store := storeSet store sk.2 finalSession,
        llmCalled := true,
        screenshotFetched := false }

/-! ## Chat GET route (history lookup) -/

inductive ChatGetResponse where
  | ok (sessionId : String) (messages : List ChatMessage) (createdAt updatedAt : Nat)
  | err (status : Nat) (error : String)
deriving DecidableEq

def getStatus : ChatGetResponse → Nat
  | .ok _ _ _ _ => 200
  | .err s _ => s

/-- The chat GET handler: `sessionIdParam` is
`url.searchParams.get('sessionId')` (`none` = parameter absent); the route
tests its JS truthiness, so an empty value falls into the 400 branch. -/
def chatGET (sessionIdParam : Option String) (store : Store) :
    ChatGetResponse × Store :=
  match sessionIdParam with
  | none => (.err 400 "Session ID is required", store)
  | some sid =>
      if sid = "" then (.err 400 "Session ID is required", store)
      else
        match storeGet store sid with
        | none => (.err 404 "Session not found", store)
        | some s => (.ok s.id s.messages s.createdAt s.updatedAt, store)

/-! ## Helper lemmas -/

lemma storeGet_storeSet_self (st : Store) (k : String) (v : ChatSession) :
    storeGet (storeSet st k v) k = some v := by
  induction st with
  | nil => simp [storeSet, storeGet]
  | cons p rest ih =>
      by_cases h : p.1 = k <;> simp [storeSet, storeGet, h, ih]

lemma storeGet_storeSet_ne (st : Store) (k k' : String) (v : ChatSession)
    (h : k ≠ k') : storeGet (storeSet st k v) k' = storeGet st k' := by
  induction st with
  | nil => simp [storeSet, storeGet, h]
  | cons p rest ih =>
      by_cases hp : p.1 = k
      · simp [storeSet, storeGet, hp, h, Ne.symm h]
      · by_cases hp' : p.1 = k' <;>
          simp [storeSet, storeGet, hp, hp', Ne.symm h, ih]

lemma ne_of_data_take (a b : String) (n : Nat)
    (h : a.data.take n ≠ b.data.take n) : a ≠ b := fun he => h (he ▸ rfl)

/-- The three failure messages of the screenshot route are pairwise distinct,
whatever the interpolated spawn error, exit code and stderr text are. -/
lemma screenshot_errors_distinct (m : String) (c : Option Int) (e : String) :
    spawnFailureError m ≠ nonzeroExitError c e ∧
    spawnFailureError m ≠ emptyOutputError ∧
    nonzeroExitError c e ≠ emptyOutputError := by
  have hsp : (spawnFailureError m).data.take 1 = ['F'] := by
    rw [spawnFailureError, String.data_append,
      List.take_append_of_le_length
        (by decide : (1 : Nat) ≤ ("Failed to start screenshot process: ").data.length)]
    decide
  have hnz : (nonzeroExitError c e).data.take 1 = ['S'] := by
    rw [nonzeroExitError]
    simp only [String.data_append, List.append_assoc]
    rw [List.take_append_of_le_length
        (by decide : (1 : Nat) ≤ ("Screenshot script failed (code ").data.length)]
    decide
  have hnz25 : (nonzeroExitError c e).data.take 25 =
      ("Screenshot script failed ").data := by
    rw [nonzeroExitError]
    simp only [String.data_append, List.append_assoc]
    rw [List.take_append_of_le_length
        (by decide : (25 : Nat) ≤ ("Screenshot script failed (code ").data.length)]
    decide
  refine ⟨?_, ?_, ?_⟩
  · apply ne_of_data_take _ _ 1
    rw [hsp, hnz]
    decide
  · apply ne_of_data_take _ _ 1
    rw [hsp]
    decide
  · apply ne_of_data_take _ _ 25
    rw [hnz25]
    decide

/-- The store invariant the routes maintain: every stored session's `id`
field equals its key (sessions enter the map only via
`chatSessions.set(newSessionId, newSession)`). -/
def storeWellKeyed (store : Store) : Prop :=
  ∀ k s, storeGet store k = some s → s.id = k

lemma resolveSession_of_mem (store : Store) (sid freshId : String) (now : Nat)
    (s : ChatSession) (hsid : sid ≠ "") (hs : storeGet store sid = some s) :
    resolveSession store (some sid) freshId now =
      ({ s with updatedAt := now }, sid) := by
  simp [resolveSession, hsid, hs]

lemma resolveSession_id_eq_key (store : Store) (q : Option String)
    (freshId : String) (now : Nat) (hwk : storeWellKeyed store) :
    (resolveSession store q freshId now).1.id =
      (resolveSession store q freshId now).2 := by
  match q with
  | none => rfl
  | some sid =>
      by_cases hsid : sid = ""
      · simp [resolveSession, hsid, newSession]
      · match hs : storeGet store sid with
        | none => simp [resolveSession, hsid, hs, newSession]
        | some s => simpa [resolveSession, hsid, hs] using hwk sid s hs

lemma fcAssistant_role (llm : FunctionCallResult) (shot : ScreenshotApiOutcome)
    (now : Nat) : (fcAssistant llm shot now).role = .assistant := by
  unfold fcAssistant assistantOnShot mkAssistant
  split
  · split <;> rfl
  · split <;> rfl

lemma chatPOST_success (now : Nat) (freshId : String) (req : ChatRequest)
    (store : Store) (llm : FunctionCallResult) (shot : ScreenshotApiOutcome)
    (h : req.message ≠ "") :
    chatPOST now freshId req store llm shot =
      { response := .ok (resolveSession store req.sessionId freshId now).1.id
          (fcAssistant llm shot now) (fcExtractedUrl llm)
          (fcIsScreenshotIntent llm),
        store := storeSet store (resolveSession store req.sessionId freshId now).2
          (sessionAfterTurn (resolveSession store req.sessionId freshId now).1
            req.message now (fcAssistant llm shot now)),
        llmCalled := true,
        screenshotFetched :=
          fcIsScreenshotIntent llm && strTruthy (fcExtractedUrl llm) } := by
  simp [chatPOST, h]

/-! ## Claim theorems -/

/-- C1: for every helper-process run of the screenshot POST endpoint, the
result is a success response carrying the collected stdout as `base64Data`
iff the exit code is zero and stdout is non-empty; otherwise exactly one of
three pairwise-distinct 500 errors is returned, checked in this order:
spawn failure, non-zero exit (carrying the code and the stderr text), empty
output.  The hypothesis records that a process that failed to start never
ran: its `close` event delivers a null exit code and it produced no
output. -/
theorem screenshot_route_outcome (url : String) (st : SpawnState)
    (hrun : st.processError = none ∨ (st.exitCode = none ∧ st.stdoutData = "")) :
    ((screenshotPOST (some url) st).1 = .ok st.stdoutData ↔
      st.exitCode = some 0 ∧ st.stdoutData ≠ "") ∧
    (∀ b, (screenshotPOST (some url) st).1 = .ok b → b = st.stdoutData) ∧
    (∀ m, st.processError = some m →
      (screenshotPOST (some url) st).1 = .err 500 (spawnFailureError m)) ∧
    (st.processError = none → st.exitCode ≠ some 0 →
      (screenshotPOST (some url) st).1 =
        .err 500 (nonzeroExitError st.exitCode st.stderrData)) ∧
    (st.processError = none → st.exitCode = some 0 → st.stdoutData = "" →
      (screenshotPOST (some url) st).1 = .err 500 emptyOutputError) ∧
    (∀ m c e, spawnFailureError m ≠ nonzeroExitError c e ∧
      spawnFailureError m ≠ emptyOutputError ∧
      nonzeroExitError c e ≠ emptyOutputError) := by
  have h5 : ((screenshotPOST (some url) st).1 = .ok st.stdoutData ↔
      st.exitCode = some 0 ∧ st.stdoutData ≠ "") ∧
      (∀ b, (screenshotPOST (some url) st).1 = .ok b → b = st.stdoutData) ∧
      (∀ m, st.processError = some m →
        (screenshotPOST (some url) st).1 = .err 500 (spawnFailureError m)) ∧
      (st.processError = none → st.exitCode ≠ some 0 →
        (screenshotPOST (some url) st).1 =
          .err 500 (nonzeroExitError st.exitCode st.stderrData)) ∧
      (st.processError = none → st.exitCode = some 0 → st.stdoutData = "" →
        (screenshotPOST (some url) st).1 = .err 500 emptyOutputError) := by
    obtain ⟨pe, code, out, serr⟩ := st
    rcases hrun with hpe | ⟨hcode, hout⟩
    · subst hpe
      by_cases hc : code = some 0
      · subst hc
        by_cases ho : out = "" <;>
          simp [screenshotPOST, closeHandler, ho]
      · simp only [screenshotPOST, closeHandler]
        simp [hc]
    · subst hcode
      subst hout
      cases pe <;>
        simp [screenshotPOST, closeHandler]
  exact ⟨h5.1, h5.2.1, h5.2.2.1, h5.2.2.2.1, h5.2.2.2.2,
    fun m c e => screenshot_errors_distinct m c e⟩

/-- Witness for C1 at a concrete run: exit code zero and non-empty stdout
give a success response carrying the stdout payload. -/
theorem screenshot_route_outcome_witness :
    (screenshotPOST (some "https://example.com") ⟨none, some 0, "QUJD", ""⟩).1 =
      ScreenshotResponse.ok "QUJD" :=
  ((screenshot_route_outcome "https://example.com" ⟨none, some 0, "QUJD", ""⟩
    (Or.inl rfl)).1).mpr (by decide)

/-- C2 counterexample: an empty message to the chat POST endpoint is answered
with status 500 (the ZodError falls into the route's generic catch), not with
the 4xx (400) the claim states. -/
theorem chat_empty_message_cex :
    chatStatus (chatPOST 0 "fresh-id" ⟨none, ""⟩ [] ⟨"", none⟩
      (.ok "x")).response = 500 ∧
    chatStatus (chatPOST 0 "fresh-id" ⟨none, ""⟩ [] ⟨"", none⟩
      (.ok "x")).response ≠ 400 := by
  decide

/-- C2 (amended): a malformed URL makes the screenshot POST endpoint answer
400 without spawning the helper process; an empty message makes the chat POST
endpoint answer 500 (not 4xx) without calling the LLM or fetching a
screenshot, and without touching the session store. -/
theorem invalid_input_no_side_calls (st : SpawnState) (now : Nat)
    (freshId : String) (req : ChatRequest) (store : Store)
    (llm : FunctionCallResult) (shot : ScreenshotApiOutcome)
    (hmsg : req.message = "") :
    screenshotPOST none st = (.err 400 "Invalid request body or URL.", false) ∧
    (chatPOST now freshId req store llm shot).response =
      .err 500 chatValidationError ∧
    (chatPOST now freshId req store llm shot).llmCalled = false ∧
    (chatPOST now freshId req store llm shot).screenshotFetched = false ∧
    (chatPOST now freshId req store llm shot).store = store := by
  simp [screenshotPOST, chatPOST, hmsg, validationFailure]

/-- Witness for C2 (amended) at a concrete empty-message request. -/
theorem invalid_input_no_side_calls_witness :
    screenshotPOST none ⟨none, some 0, "", ""⟩ =
      (ScreenshotResponse.err 400 "Invalid request body or URL.", false) :=
  (invalid_input_no_side_calls ⟨none, some 0, "", ""⟩ 0 "f" ⟨none, ""⟩ []
    ⟨"", none⟩ (.ok "x") rfl).1

/-- C8 counterexample: a history GET whose sessionId parameter is present but
empty names no session, yet is answered 400 (the route tests JS truthiness),
not the 404 the claim states for a present-but-unknown id. -/
theorem history_empty_param_cex :
    getStatus (chatGET (some "") [("a", newSession "a" 0)]).1 = 400 ∧
    getStatus (chatGET (some "") [("a", newSession "a" 0)]).1 ≠ 404 ∧
    storeGet [("a", newSession "a" 0)] "" = none := by
  decide

/-- C8 (amended): a history GET answers 400 when the sessionId parameter is
missing or empty, 404 when it is present, non-empty and unknown, and
otherwise succeeds with the full session (id, messages in order, createdAt,
updatedAt); the lookup never modifies the store. -/
theorem history_lookup_spec (param : Option String) (store : Store) :
    ((param = none ∨ param = some "") →
      (chatGET param store).1 = .err 400 "Session ID is required") ∧
    (∀ sid, param = some sid → sid ≠ "" → storeGet store sid = none →
      (chatGET param store).1 = .err 404 "Session not found") ∧
    (∀ sid s, param = some sid → sid ≠ "" → storeGet store sid = some s →
      (chatGET param store).1 = .ok s.id s.messages s.createdAt s.updatedAt) ∧
    (chatGET param store).2 = store := by
  match param with
  | none => simp [chatGET]
  | some sid =>
      by_cases hsid : sid = ""
      · subst hsid
        simp [chatGET]
        exact fun sid s h1 h2 => absurd h1.symm h2
      · match hs : storeGet store sid with
        | none =>
            refine ⟨?_, ?_, ?_, ?_⟩ <;>
              simp_all [chatGET]
        | some s =>
            refine ⟨?_, ?_, ?_, ?_⟩ <;>
              simp_all [chatGET]

/-- Witness for C8 (amended): a missing parameter is answered 400. -/
theorem history_lookup_spec_witness :
    (chatGET none [("a", newSession "a" 0)]).1 =
      ChatGetResponse.err 400 "Session ID is required" :=
  (history_lookup_spec none [("a", newSession "a" 0)]).1 (Or.inl rfl)

/-- C6: URL extraction returns absence when the (trimmed) reply equals the
sentinel; otherwise the trimmed reply is parsed and its normalized form
returned; when that parse fails and the reply bears neither the http:// nor
the https:// scheme, https:// is prefixed and parsing retried once, the
retry's result (normalized URL or absence) being final; when the parse fails
on a scheme-bearing reply, absence is returned with no retry. -/
theorem extract_url_spec (parseURL : String → Option String) (reply : String) :
    (trimStr reply = noUrlSentinel → extractUrlCore parseURL reply = none) ∧
    (trimStr reply ≠ noUrlSentinel →
      ∀ u, parseURL (trimStr reply) = some u →
        extractUrlCore parseURL reply = some u) ∧
    (trimStr reply ≠ noUrlSentinel → parseURL (trimStr reply) = none →
      startsWithStr (trimStr reply) "http://" = false →
      startsWithStr (trimStr reply) "https://" = false →
      extractUrlCore parseURL reply = parseURL ("https://" ++ trimStr reply)) ∧
    (trimStr reply ≠ noUrlSentinel → parseURL (trimStr reply) = none →
      (startsWithStr (trimStr reply) "http://" = true ∨
        startsWithStr (trimStr reply) "https://" = true) →
      extractUrlCore parseURL reply = none) := by
  refine ⟨fun h => ?_, fun h u hu => ?_, fun h hp h1 h2 => ?_, fun h hp hor => ?_⟩
  · simp [extractUrlCore, h]
  · simp [extractUrlCore, h, hu]
  · simp [extractUrlCore, h, hp, h1, h2]
  · rcases hor with h1 | h1 <;> simp [extractUrlCore, h, hp, h1]

/-- Witness for C6: the sentinel reply yields absence. -/
theorem extract_url_spec_witness :
    extractUrlCore (fun _ => none) "NO_URL_FOUND" = none :=
  (extract_url_spec (fun _ => none) "NO_URL_FOUND").1 (by decide)

/-- C7: each LLM wrapper maps a thrown transport/API error to its safe
default — absence for URL extraction, negative for intent detection, the
apology text for both chat-generation variants — and, being a total function
of the call outcome, never lets the error escape to its caller. -/
theorem llm_wrappers_catch_errors (e : String)
    (parseURL : String → Option String) (messages : List ChatMessage) :
    extractUrlFromPrompt parseURL (.error e) = none ∧
    detectScreenshotIntent (.error e) = false ∧
    (generateChatResponseV2 messages (.error e)).1 = apologyText ∧
    generateChatResponseFC (.apiError e) =
      { text := apologyText, functionCall := none } :=
  ⟨rfl, rfl, rfl, rfl⟩

/-- C9: the assistant message a chat turn composes and appends carries the
screenshot source URL and the base64 payload both together — exactly when the
model requested the screenshot with a usable URL and the screenshot API
succeeded — or neither; never exactly one of the two. -/
theorem assistant_screenshot_fields (now : Nat) (freshId : String)
    (req : ChatRequest) (store : Store) (llm : FunctionCallResult)
    (shot : ScreenshotApiOutcome) (h : req.message ≠ "") :
    (chatPOST now freshId req store llm shot).response =
      .ok (resolveSession store req.sessionId freshId now).1.id
        (fcAssistant llm shot now) (fcExtractedUrl llm)
        (fcIsScreenshotIntent llm) ∧
    ((∃ u b, fcIsScreenshotIntent llm = true ∧ fcExtractedUrl llm = some u ∧
        u ≠ "" ∧ shot = .ok b ∧
        (fcAssistant llm shot now).screenshotUrl = some u ∧
        (fcAssistant llm shot now).screenshotBase64 = some b ∧
        (fcAssistant llm shot now).isScreenshot = some true) ∨
      ((fcAssistant llm shot now).screenshotUrl = none ∧
        (fcAssistant llm shot now).screenshotBase64 = none ∧
        (fcAssistant llm shot now).isScreenshot = none)) := by
  refine ⟨by rw [chatPOST_success now freshId req store llm shot h], ?_⟩
  by_cases hi : fcIsScreenshotIntent llm = true
  · match hu : fcExtractedUrl llm with
    | none => right; simp [fcAssistant, hi, hu, strTruthy, mkAssistant]
    | some u =>
        by_cases hu' : u = ""
        · right
          simp [fcAssistant, hi, hu, hu', strTruthy, mkAssistant]
        · have ht : strTruthy (fcExtractedUrl llm) = true := by
            simp [strTruthy, hu, hu']
          match shot with
          | .ok b =>
              left
              refine ⟨u, b, hi, rfl, hu', rfl, ?_, ?_, ?_⟩ <;>
                simp [fcAssistant, hi, hu, assistantOnShot, strTruthy, hu']
          | .failed e =>
              right
              simp [fcAssistant, hi, ht, assistantOnShot, mkAssistant]
          | .threw e =>
              right
              simp [fcAssistant, hi, ht, assistantOnShot, mkAssistant]
  · right
    simp [fcAssistant, hi, mkAssistant]

/-- Witness for C9 at a concrete successful screenshot turn. -/
theorem assistant_screenshot_fields_witness :
    (chatPOST 3 "sess-1" ⟨none, "shoot"⟩ []
        ⟨"here", some ⟨"take_screenshot", some "https://x.com/"⟩⟩
        (.ok "IMG")).response =
      .ok (resolveSession [] none "sess-1" 3).1.id
        (fcAssistant ⟨"here", some ⟨"take_screenshot", some "https://x.com/"⟩⟩
          (.ok "IMG") 3)
        (fcExtractedUrl ⟨"here", some ⟨"take_screenshot", some "https://x.com/"⟩⟩)
        (fcIsScreenshotIntent
          ⟨"here", some ⟨"take_screenshot", some "https://x.com/"⟩⟩) ∧
    ((∃ u b,
        fcIsScreenshotIntent
          ⟨"here", some ⟨"take_screenshot", some "https://x.com/"⟩⟩ = true ∧
        fcExtractedUrl
          ⟨"here", some ⟨"take_screenshot", some "https://x.com/"⟩⟩ = some u ∧
        u ≠ "" ∧ (ScreenshotApiOutcome.ok "IMG" : ScreenshotApiOutcome) = .ok b ∧
        (fcAssistant ⟨"here", some ⟨"take_screenshot", some "https://x.com/"⟩⟩
          (.ok "IMG") 3).screenshotUrl = some u ∧
        (fcAssistant ⟨"here", some ⟨"take_screenshot", some "https://x.com/"⟩⟩
          (.ok "IMG") 3).screenshotBase64 = some b ∧
        (fcAssistant ⟨"here", some ⟨"take_screenshot", some "https://x.com/"⟩⟩
          (.ok "IMG") 3).isScreenshot = some true) ∨
      ((fcAssistant ⟨"here", some ⟨"take_screenshot", some "https://x.com/"⟩⟩
          (.ok "IMG") 3).screenshotUrl = none ∧
        (fcAssistant ⟨"here", some ⟨"take_screenshot", some "https://x.com/"⟩⟩
          (.ok "IMG") 3).screenshotBase64 = none ∧
        (fcAssistant ⟨"here", some ⟨"take_screenshot", some "https://x.com/"⟩⟩
          (.ok "IMG") 3).isScreenshot = none)) :=
  assistant_screenshot_fields 3 "sess-1" ⟨none, "shoot"⟩ []
    ⟨"here", some ⟨"take_screenshot", some "https://x.com/"⟩⟩
    (.ok "IMG") (by decide)

lemma storeWellKeyed_singleton (sid : String) (s : ChatSession)
    (h : s.id = sid) : storeWellKeyed [(sid, s)] := by
  intro k s' hk
  by_cases hky : sid = k
  · subst hky
    simp [storeGet] at hk
    rw [← hk, h]
  · simp [storeGet, hky] at hk

/-- C3: a successful chat turn leaves its returned session id bound in the
(still well-keyed) store; and a turn submitted with a session id the store
knows answers with that same id — not a newly created one — and appends
exactly two messages, the user message then the assistant message, to that
session's list. -/
theorem chat_session_continuity (now : Nat) (freshId : String)
    (req : ChatRequest) (store : Store) (llm : FunctionCallResult)
    (shot : ScreenshotApiOutcome) (hwk : storeWellKeyed store)
    (hm : req.message ≠ "") :
    (∀ sid a eu isi,
      (chatPOST now freshId req store llm shot).response = .ok sid a eu isi →
      ∃ s', storeGet (chatPOST now freshId req store llm shot).store sid =
          some s' ∧ s'.id = sid ∧
        storeWellKeyed (chatPOST now freshId req store llm shot).store) ∧
    (∀ sid s, req.sessionId = some sid → sid ≠ "" →
      storeGet store sid = some s →
      ∃ a, (chatPOST now freshId req store llm shot).response =
          .ok sid a (fcExtractedUrl llm) (fcIsScreenshotIntent llm) ∧
        a.role = .assistant ∧
        ∃ s', storeGet (chatPOST now freshId req store llm shot).store sid =
            some s' ∧
          s'.id = s.id ∧ s'.createdAt = s.createdAt ∧ s'.updatedAt = now ∧
          s'.messages = s.messages ++ [mkUserMessage req.message now, a] ∧
          s'.messages.length = s.messages.length + 2) := by
  rw [chatPOST_success now freshId req store llm shot hm]
  have hkey := resolveSession_id_eq_key store req.sessionId freshId now hwk
  constructor
  · intro sid a eu isi hresp
    have hsid : sid = (resolveSession store req.sessionId freshId now).1.id := by
      cases hresp
      rfl
    refine ⟨sessionAfterTurn (resolveSession store req.sessionId freshId now).1
      req.message now (fcAssistant llm shot now), ?_, ?_, ?_⟩
    · rw [hsid, hkey]
      exact storeGet_storeSet_self _ _ _
    · rw [hsid]
      rfl
    · intro k s' hk
      by_cases hkk : (resolveSession store req.sessionId freshId now).2 = k
      · rw [← hkk, storeGet_storeSet_self] at hk
        cases hk
        rw [← hkk, ← hkey]
        rfl
      · rw [storeGet_storeSet_ne _ _ _ _ hkk] at hk
        exact hwk k s' hk
  · intro sid s hq hsid hs
    rw [hq, resolveSession_of_mem store sid freshId now s hsid hs]
    have hid : s.id = sid := hwk sid s hs
    refine ⟨fcAssistant llm shot now, ?_, fcAssistant_role llm shot now,
      sessionAfterTurn { s with updatedAt := now } req.message now
        (fcAssistant llm shot now), ?_, ?_, ?_, ?_, ?_, ?_⟩
    · simp [hid]
    · exact storeGet_storeSet_self _ _ _
    · rfl
    · rfl
    · rfl
    · simp [sessionAfterTurn]
    · simp [sessionAfterTurn]

/-- Witness for C3 at a concrete second turn reusing session id "A". -/
theorem chat_session_continuity_witness :
    ∃ a, (chatPOST 7 "B" ⟨some "A", "again"⟩ [("A", ⟨"A", [], 1, 1⟩)]
        ⟨"t", none⟩ (.ok "b")).response =
      .ok "A" a (fcExtractedUrl ⟨"t", none⟩) (fcIsScreenshotIntent ⟨"t", none⟩) ∧
      a.role = .assistant ∧
      ∃ s', storeGet (chatPOST 7 "B" ⟨some "A", "again"⟩
          [("A", ⟨"A", [], 1, 1⟩)] ⟨"t", none⟩ (.ok "b")).store "A" = some s' ∧
        s'.id = (⟨"A", [], 1, 1⟩ : ChatSession).id ∧
        s'.createdAt = (⟨"A", [], 1, 1⟩ : ChatSession).createdAt ∧
        s'.updatedAt = 7 ∧
        s'.messages = (⟨"A", [], 1, 1⟩ : ChatSession).messages ++
          [mkUserMessage "again" 7, a] ∧
        s'.messages.length =
          (⟨"A", [], 1, 1⟩ : ChatSession).messages.length + 2 :=
  (chat_session_continuity 7 "B" ⟨some "A", "again"⟩ [("A", ⟨"A", [], 1, 1⟩)]
    ⟨"t", none⟩ (.ok "b") (storeWellKeyed_singleton "A" ⟨"A", [], 1, 1⟩ rfl)
    (by decide)).2 "A" ⟨"A", [], 1, 1⟩ rfl (by decide) (by decide)

lemma resolveSession_key_cases (store : Store) (q : Option String)
    (freshId : String) (now : Nat) :
    (resolveSession store q freshId now).2 = freshId ∨
    (∃ sid s, q = some sid ∧ sid ≠ "" ∧ storeGet store sid = some s ∧
      resolveSession store q freshId now = ({ s with updatedAt := now }, sid)) := by
  match q with
  | none => exact Or.inl rfl
  | some sid =>
      by_cases hsid : sid = ""
      · exact Or.inl (by simp [resolveSession, hsid])
      · match hs : storeGet store sid with
        | none => exact Or.inl (by simp [resolveSession, hsid, hs])
        | some s =>
            exact Or.inr ⟨sid, s, rfl, hsid, hs, by simp [resolveSession, hsid, hs]⟩

lemma chatGET_preserves_store (q : Option String) (store : Store) :
    (chatGET q store).2 = store := by
  match q with
  | none => rfl
  | some sid =>
      by_cases hsid : sid = ""
      · simp [chatGET, hsid]
      · match hs : storeGet store sid with
        | none => simp [chatGET, hsid, hs]
        | some s => simp [chatGET, hsid, hs]

/-- C10: after a session is created, no operation changes its `id` or
`createdAt`: a chat turn leaves every stored session untouched except the one
it resolves, for which it refreshes only `updatedAt` and appends the user and
assistant messages; a history GET modifies nothing.  The hypothesis
`storeGet store freshId = none` records that a fresh uuid never collides with
an existing key. -/
theorem session_frame (now : Nat) (freshId : String) (req : ChatRequest)
    (store : Store) (llm : FunctionCallResult) (shot : ScreenshotApiOutcome)
    (k : String) (s : ChatSession) (hk : storeGet store k = some s)
    (hfresh : storeGet store freshId = none) :
    (∃ s', storeGet (chatPOST now freshId req store llm shot).store k =
        some s' ∧ s'.id = s.id ∧ s'.createdAt = s.createdAt ∧
      ((s'.updatedAt = s.updatedAt ∧ s'.messages = s.messages) ∨
        (s'.updatedAt = now ∧ ∃ a, a.role = Role.assistant ∧
          s'.messages = s.messages ++ [mkUserMessage req.message now, a]))) ∧
    (∀ q, (chatGET q store).2 = store) := by
  refine ⟨?_, fun q => chatGET_preserves_store q store⟩
  have hkf : k ≠ freshId := by
    intro he
    rw [he, hfresh] at hk
    cases hk
  by_cases hm : req.message = ""
  · refine ⟨s, ?_, rfl, rfl, Or.inl ⟨rfl, rfl⟩⟩
    simp [chatPOST, hm, validationFailure, hk]
  · rw [chatPOST_success now freshId req store llm shot hm]
    rcases resolveSession_key_cases store req.sessionId freshId now with
      hkey | ⟨sid, s0, _, hsid, hs0, hres⟩
    · refine ⟨s, ?_, rfl, rfl, Or.inl ⟨rfl, rfl⟩⟩
      rw [hkey, storeGet_storeSet_ne _ _ _ _ (Ne.symm hkf)]
      exact hk
    · rw [hres]
      by_cases hks : k = sid
      · subst hks
        have hss : s0 = s := by
          rw [hk] at hs0
          cases hs0
          rfl
        subst hss
        refine ⟨_, storeGet_storeSet_self _ _ _, rfl, rfl,
          Or.inr ⟨rfl, fcAssistant llm shot now,
            fcAssistant_role llm shot now, ?_⟩⟩
        simp [sessionAfterTurn]
      · refine ⟨s, ?_, rfl, rfl, Or.inl ⟨rfl, rfl⟩⟩
        rw [storeGet_storeSet_ne _ _ _ _ (fun he => hks he.symm)]
        exact hk

/-- Witness for C10: a turn reusing session "A" leaves a second stored
session "C" untouched... here instantiated at the reused session itself. -/
theorem session_frame_witness :
    (∃ s', storeGet (chatPOST 9 "B" ⟨some "A", "hi"⟩ [("A", ⟨"A", [], 1, 1⟩)]
        ⟨"t", none⟩ (.ok "b")).store "A" = some s' ∧
      s'.id = (⟨"A", [], 1, 1⟩ : ChatSession).id ∧
      s'.createdAt = (⟨"A", [], 1, 1⟩ : ChatSession).createdAt ∧
      ((s'.updatedAt = (⟨"A", [], 1, 1⟩ : ChatSession).updatedAt ∧
          s'.messages = (⟨"A", [], 1, 1⟩ : ChatSession).messages) ∨
        (s'.updatedAt = 9 ∧ ∃ a, a.role = Role.assistant ∧
          s'.messages = (⟨"A", [], 1, 1⟩ : ChatSession).messages ++
            [mkUserMessage "hi" 9, a]))) ∧
    (∀ q, (chatGET q [("A", ⟨"A", [], 1, 1⟩)]).2 = [("A", ⟨"A", [], 1, 1⟩)]) :=
  session_frame 9 "B" ⟨some "A", "hi"⟩ [("A", ⟨"A", [], 1, 1⟩)] ⟨"t", none⟩
    (.ok "b") "A" ⟨"A", [], 1, 1⟩ (by decide) (by decide)

lemma twoCallIntentAssistant_role (url : Option String)
    (shot : ScreenshotApiOutcome) (now : Nat) :
    (twoCallIntentAssistant url shot now).role = .assistant := by
  unfold twoCallIntentAssistant mkAssistant
  split
  · split <;> rfl
  · rfl

/-- C4 counterexample: with corresponding external outcomes (screenshot
intent, no usable URL), the two historical chat-turn implementations answer
with different assistant messages, so their externally observable responses
are not the same. -/
theorem variants_differ_cex :
    (chatPOSTTwoCall 0 "s1" ⟨none, "take a screenshot"⟩ [] true none
        (.ok "t") (.ok "b")).response ≠
      (chatPOST 0 "s1" ⟨none, "take a screenshot"⟩ []
        ⟨"t", some ⟨"take_screenshot", none⟩⟩ (.ok "b")).response := by
  decide

/-- C4 (amended): under corresponding external outcomes (the same intent
decision, extracted URL, model text and screenshot result), the two variants
produce responses that agree on the success flag, the session id, the
extractedUrl and the isScreenshotIntent metadata, and both append an
assistant message — but the assistant message texts differ between the
variants in the screenshot branches, so the full responses are not equal. -/
theorem variants_agree_on_contract (now : Nat) (freshId : String)
    (req : ChatRequest) (store : Store) (t : String) (url : Option String)
    (intent : Bool) (shot : ScreenshotApiOutcome) (hm : req.message ≠ "") :
    ∃ sid a1 a2,
      (chatPOSTTwoCall now freshId req store intent url (.ok t) shot).response =
        .ok sid a1 (if intent then url else none) intent ∧
      (chatPOST now freshId req store
        ⟨t, if intent then some ⟨"take_screenshot", url⟩ else none⟩
        shot).response =
        .ok sid a2 (if intent then url else none) intent ∧
      a1.role = .assistant ∧ a2.role = .assistant := by
  cases intent
  · refine ⟨(resolveSession store req.sessionId freshId now).1.id,
      mkAssistant (generateChatResponseV2
        ((resolveSession store req.sessionId freshId now).1.messages ++
          [mkUserMessage req.message now]) (.ok t)).1 now,
      fcAssistant ⟨t, none⟩ shot now, ?_, ?_, rfl, fcAssistant_role _ _ _⟩
    · simp [chatPOSTTwoCall, hm]
    · simp [chatPOST, hm, fcExtractedUrl, fcIsScreenshotIntent]
  · refine ⟨(resolveSession store req.sessionId freshId now).1.id,
      twoCallIntentAssistant url shot now,
      fcAssistant ⟨t, some ⟨"take_screenshot", url⟩⟩ shot now, ?_, ?_,
      twoCallIntentAssistant_role _ _ _, fcAssistant_role _ _ _⟩
    · simp [chatPOSTTwoCall, hm]
    · simp [chatPOST, hm, fcExtractedUrl, fcIsScreenshotIntent]

/-- Witness for C4 (amended) at a concrete screenshot turn. -/
theorem variants_agree_on_contract_witness :
    ∃ sid a1 a2,
      (chatPOSTTwoCall 0 "s1" ⟨none, "hey"⟩ [] true (some "https://x.com/")
          (.ok "txt") (.ok "b")).response =
        .ok sid a1 (if true then some "https://x.com/" else none) true ∧
      (chatPOST 0 "s1" ⟨none, "hey"⟩ []
          ⟨"txt", if true then some ⟨"take_screenshot", some "https://x.com/"⟩
            else none⟩ (.ok "b")).response =
        .ok sid a2 (if true then some "https://x.com/" else none) true ∧
      a1.role = .assistant ∧ a2.role = .assistant :=
  variants_agree_on_contract 0 "s1" ⟨none, "hey"⟩ [] "txt"
    (some "https://x.com/") true (.ok "b") (by decide)

set_option maxRecDepth 8192 in
/-- C5 failing run: the two-call variant's `generateChatResponse`, called on
a first turn with message "hello" and no screenshot intent, rewrites the
stored user message's content in place to the context-prefixed prompt, so
the session's history afterwards shows the rewritten text, not "hello". -/
theorem stored_user_message_rewritten :
    (storeGet (chatPOSTTwoCall 0 "s1" ⟨none, "hello"⟩ [] false none
        (.ok "hi there") (.ok "b")).store "s1").map
        (fun s => s.messages.map (fun m => m.content)) =
      some [contextPrefix "hello", "hi there"] ∧
    contextPrefix "hello" ≠ "hello" := by
  decide

end MCPScreenshot
